import Mathlib

/-!
Verification of the core algorithms of the xpsservice / xtbservice
vibrational-spectroscopy pipeline.

The development shallowly embeds the two source files of the repository:

* `src/xpsservice/utils.py` — the structure builder (`smiles2ase`,
  `molfile2ase`, `check_max_atoms`, `rdkit2ase`): namespace `XpsUtils`;
* `src/xtbservice/ir.py` — the vibrational analyzer and mode classifier
  (`run_xtb_ir`, `compile_modes_info`, `select_most_contributing_bonds`,
  `select_most_contributing_atoms`, `get_bond_displacements`,
  `ir_from_smiles`, `ir_from_molfile`): namespace `XtbIR`.

Floating-point values of the Python code are modelled by rationals;
numpy array operations (`np.diff`, `np.where`, `np.argsort`,
elementwise comparison) are modelled by the list helpers below.
External collaborators that are not part of the repository (RDKit
parsing, the conformer-embedding routine, the xtb engine, the diskcache
stores) are modelled as explicit function parameters or as input data,
so every theorem is about the control flow and arithmetic that the two
source files themselves implement.
-/

/-! ## Numpy list helpers -/

/-- Model of `np.diff`: the list of differences between consecutive entries,
`diff[i] = l[i+1] - l[i]`. -/
def np_diff (l : List ℚ) : List ℚ := (l.zip l.tail).map (fun p => p.2 - p.1)

/-- Model of `np.max` over a list of nonnegative values (the only way it is
used in the embedded code: over lists of absolute values and of Euclidean
magnitudes). For a nonempty list of nonnegative entries this is exactly the
maximum entry. -/
def listMax0 (l : List ℚ) : ℚ := l.foldr max 0

/-- Model of `np.where(pred(arr))[0]`: the indices of the entries of `l`
satisfying `p`, in increasing order. -/
def npWhere (p : ℚ → Bool) (l : List ℚ) : List ℕ :=
  (List.range l.length).filter (fun i => p (l.getD i 0))

/-- Model of `np.argsort`: the permutation of `[0, l.length)` that sorts the
entries of `l` ascending (stably). The Python code applies it to the array of
mode frequencies; only the fact that it is a permutation of the index range
matters to the verified claims, so the sort keys are modelled in `ℚ`. -/
def argsort (l : List ℚ) : List ℕ :=
  (List.range l.length).mergeSort (fun i j => decide (l.getD i 0 ≤ l.getD j 0))

/-! ## Python error model -/

/-- Errors raised by the embedded Python code.  `tooLargeError` models
`TooLargeError` from `xpsservice/errors.py`; `attributeError` models Python's
built-in `AttributeError` (raised when a method is called on `None`);
`invalidInputError` models the `InvalidInputError` kind named by the spec's
error-handling design; `assertionError` models a failing `assert`. -/
inductive PyError where
  | tooLargeError (msg : String)
  | attributeError (msg : String)
  | invalidInputError (msg : String)
  | assertionError
  deriving DecidableEq, Repr

/-- Tests whether a call outcome is an `InvalidInputError`. -/
def isInvalidInputError {α : Type} : Except PyError α → Bool
  | Except.error (PyError.invalidInputError _) => true
  | _ => false

/-- Tests whether a call outcome is a `TooLargeError`. -/
def isTooLargeError {α : Type} : Except PyError α → Bool
  | Except.error (PyError.tooLargeError _) => true
  | _ => false

namespace XpsUtils

/-! ## Models of `src/xpsservice/utils.py` -/

/-- Model of an RDKit `Mol` as far as the structure builder inspects it:
`numAtoms` is what `GetNumAtoms()` returns on the parsed graph (for a
SMILES-parsed mol this counts only the explicit, i.e. heavy, atoms), and
`numImplicitH` is the number of hydrogens that `Chem.AddHs` would add. -/
structure RDMol where
  numAtoms : ℕ
  numImplicitH : ℕ
  deriving DecidableEq, Repr

/-- Model of `Chem.AddHs`: all implicit hydrogens become explicit atoms. -/
def AddHs (mol : RDMol) : RDMol :=
  { numAtoms := mol.numAtoms + mol.numImplicitH, numImplicitH := 0 }

/-- Model of an ASE `Atoms` object as far as the claims inspect it: its atom
count. -/
structure AseAtoms where
  numAtoms : ℕ
  deriving DecidableEq, Repr

/-- Model of `rdkit2ase` (utils.py line 33): builds an `Atoms` object with one
atom per atom of the mol, so the atom count is preserved. -/
def rdkit2ase (mol : RDMol) : AseAtoms := { numAtoms := mol.numAtoms }

/-- Modelled from the spec: `embed_conformer` (imported from
`xpsservice/conformers.py`, which is not part of the given sources)
deterministically produces one 3D conformation for the molecular graph.  It
does not change the graph, so on this model — which carries no coordinates —
it is the identity; the builders additionally count how often it is invoked. -/
def embed_conformer (mol : RDMol) : RDMol := mol

/-- The message of the `TooLargeError` raised by `check_max_atoms`. -/
def tooLargeMsg (max_atoms : ℕ) : String :=
  "Molecule can have maximal " ++ toString max_atoms ++ " atoms for this service"

/-- Model of the Python expression `mol.GetNumAtoms()` where `mol` may be
`None` (RDKit's parsers return `None` on unparseable input): calling a method
on `None` raises `AttributeError`. -/
def getNumAtoms : Option RDMol → Except PyError ℕ
  | none => Except.error (PyError.attributeError "NoneType object has no attribute GetNumAtoms")
  | some mol => Except.ok mol.numAtoms

/-- Model of the Python expression `mol.UpdatePropertyCache(strict=False)`
where `mol` may be `None`. -/
def updatePropertyCache : Option RDMol → Except PyError Unit
  | none =>
    Except.error (PyError.attributeError "NoneType object has no attribute UpdatePropertyCache")
  | some _ => Except.ok ()

/-- Model of `check_max_atoms` (utils.py lines 27-31): raises `TooLargeError`
when `mol.GetNumAtoms() > max_atoms`. -/
def check_max_atoms (mol : Option RDMol) (max_atoms : ℕ) : Except PyError Unit :=
  match getNumAtoms mol with
  | Except.error e => Except.error e
  | Except.ok n =>
    if max_atoms < n then Except.error (PyError.tooLargeError (tooLargeMsg max_atoms))
    else Except.ok ()

/-- Outcome of a structure-builder call: the returned (or raised) value
together with the number of times the conformer-embedding step ran. -/
structure BuildOut where
  result : Except PyError (AseAtoms × RDMol)
  embedCalls : ℕ
  deriving Repr

/-- Model of `smiles2ase` (utils.py lines 58-71).  `MolFromSmiles` models
`Chem.MolFromSmiles` (external RDKit collaborator, `none` on unparseable
input) and `conformer_cache` models the diskcache store (the `.cache` module
is not part of the given sources; a `get` miss yields `None`).  The inner
`none` branch after a successful `check_max_atoms` is unreachable, since
`check_max_atoms none _` always raises. -/
def smiles2ase (MolFromSmiles : String → Option RDMol)
    (conformer_cache : String → Option (AseAtoms × RDMol))
    (smiles : String) (max_atoms : ℕ) : BuildOut :=
  match conformer_cache smiles with
  | some result => { result := Except.ok result, embedCalls := 0 }
  | none =>
    let mol := MolFromSmiles smiles
    match check_max_atoms mol max_atoms with
    | Except.error e => { result := Except.error e, embedCalls := 0 }
    | Except.ok _ =>
      match mol with
      | none =>
        { result :=
            Except.error (PyError.attributeError "NoneType object has no attribute GetNumAtoms")
          embedCalls := 0 }
      | some m =>
        let refmol := embed_conformer (AddHs m)
        { result := Except.ok (rdkit2ase refmol, refmol), embedCalls := 1 }

/-- Model of `molfile2ase` (utils.py lines 42-55).  `MolFromMolBlock` models
`Chem.MolFromMolBlock(molfile, sanitize=True, removeHs=False)`; the molfile
path calls `UpdatePropertyCache` and does not add hydrogens. -/
def molfile2ase (MolFromMolBlock : String → Option RDMol)
    (conformer_cache : String → Option (AseAtoms × RDMol))
    (molfile : String) (max_atoms : ℕ) : BuildOut :=
  match conformer_cache molfile with
  | some result => { result := Except.ok result, embedCalls := 0 }
  | none =>
    let mol := MolFromMolBlock molfile
    match updatePropertyCache mol with
    | Except.error e => { result := Except.error e, embedCalls := 0 }
    | Except.ok _ =>
      match check_max_atoms mol max_atoms with
      | Except.error e => { result := Except.error e, embedCalls := 0 }
      | Except.ok _ =>
        match mol with
        | none =>
          { result :=
              Except.error (PyError.attributeError "NoneType object has no attribute GetNumAtoms")
            embedCalls := 0 }
        | some m =>
          let m2 := embed_conformer m
          { result := Except.ok (rdkit2ase m2, m2), embedCalls := 1 }

end XpsUtils

namespace XtbIR

/-! ## Models of `src/xtbservice/ir.py` -/

/-- Model of the linearity test of `run_xtb_ir` (ir.py line 81):
`linear = sum(moi > 0.01) == 2`, where `moi` is the list of the three
principal moment-of-inertia eigenvalues. -/
def is_linear (moi : List ℚ) : Bool :=
  moi.countP (fun x => decide ((1 : ℚ) / 100 < x)) == 2

/-- Model of `select_most_contributing_bonds` (ir.py lines 388-397), applied
to one mode's row of per-bond length changes.  Note that `np.diff` is taken
over `relative_contribution` in its given (bond) order, not sorted. -/
def select_most_contributing_bonds (displacements : List ℚ) (threshold : ℚ) : List ℕ :=
  if 1 < displacements.length then
    let relative_contribution := displacements.map (fun d => d / displacements.sum)
    npWhere
      (fun r =>
        decide (threshold * listMax0 ((np_diff relative_contribution).map (fun x => |x|)) < r))
      relative_contribution
  else [0]

/-- Model of `select_most_contributing_atoms` (ir.py lines 374-385), as a
function of the list of per-atom displacement magnitudes
`np.linalg.norm(displacements, axis=1)` of the mode (the Euclidean-norm
computation itself is irrational-valued and is taken as input here).  Again
`np.diff` is over the unsorted `relative_contribution`. -/
def select_most_contributing_atoms (norms : List ℚ) (threshold : ℚ) : List ℕ :=
  let relative_contribution := norms.map (fun d => d / listMax0 norms)
  npWhere
    (fun r =>
      decide (threshold * listMax0 ((np_diff relative_contribution).map (fun x => |x|)) < r))
    relative_contribution

/-- Bond selection as the spec's words describe it: the adaptive gap is the
maximum absolute difference between consecutive entries of the *sorted*
relative-contribution sequence.  Stated only to be compared with
`select_most_contributing_bonds`, which is what the code computes. -/
def select_most_contributing_bonds_specSorted (displacements : List ℚ) (threshold : ℚ) :
    List ℕ :=
  let relative_contribution := displacements.map (fun d => d / displacements.sum)
  let sorted_contribution := relative_contribution.mergeSort (fun a b => decide (a ≤ b))
  npWhere
    (fun r =>
      decide (threshold * listMax0 ((np_diff sorted_contribution).map (fun x => |x|)) < r))
    relative_contribution

/-- Positions and mode displacements are 3-vectors with rational coordinates. -/
abbrev Vec3 := ℚ × ℚ × ℚ

/-- Componentwise sum of two 3-vectors. -/
def v3add (a b : Vec3) : Vec3 := (a.1 + b.1, a.2.1 + b.2.1, a.2.2 + b.2.2)

/-- Componentwise difference of two 3-vectors. -/
def v3sub (a b : Vec3) : Vec3 := (a.1 - b.1, a.2.1 - b.2.1, a.2.2 - b.2.2)

/-- Model of `mode.sum(axis=0)`. -/
def v3sum (l : List Vec3) : Vec3 := l.foldr v3add (0, 0, 0)

/-- Model of `get_bond_vector` (ir.py line 410). -/
def get_bond_vector (positions : List Vec3) (bond : ℕ × ℕ) : Vec3 :=
  v3sub (positions.getD bond.2 (0, 0, 0)) (positions.getD bond.1 (0, 0, 0))

/-- Model of `get_displaced_positions` (ir.py line 414). -/
def get_displaced_positions (positions mode : List Vec3) : List Vec3 :=
  (positions.zip mode).map (fun p => v3add p.1 p.2)

/-- Model of `get_bond_displacements` (ir.py lines 418-431): one nonnegative
length change per bond of the molecular graph.  `norm` stands for
`np.linalg.norm` on 3-vectors; it is kept abstract because the Euclidean norm
is irrational-valued, and only the list structure matters to the claims
verified here.  The outer `np.linalg.norm` of the scalar difference is the
absolute value. -/
def get_bond_displacements (norm : Vec3 → ℚ) (bonds : List (ℕ × ℕ))
    (positions mode : List Vec3) : List ℚ :=
  let displaced_positions := (get_displaced_positions positions mode).map
    (fun p => v3sub p (v3sum mode))
  bonds.map (fun bond =>
    |norm (get_bond_vector positions bond) - norm (get_bond_vector displaced_positions bond)|)

/-- Per-mode record assembled by `compile_modes_info`, restricted to the
fields the verified claims are about: the re-ordered mode index (`number`),
the per-mode Raman intensity, and the mode-type tag. -/
structure ModeRecord where
  number : ℕ
  ramanIntensity : Option ℚ
  modeType : String
  deriving DecidableEq, Repr

/-- Model of `sorted_alignments = sorted(alignments, reverse=True)` followed
by `third_best_alignment = sorted_alignments[2]` (ir.py lines 230-232). -/
def third_best_alignment_of (alignments : List ℚ) : ℚ :=
  (alignments.mergeSort (fun a b => decide (b ≤ a))).getD 2 0

/-- The mode-type assignment inline in the loop of `compile_modes_info`
(ir.py lines 240-257), applied to the re-ordered mode index `n`. -/
def mode_type (linear : Bool) (alignments : List ℚ) (third_best_alignment : ℚ) (n : ℕ) :
    String :=
  if n < 3 then "translation"
  else if n < 5 then "rotation"
  else if n = 5 then
    if linear then "vibration"
    else if third_best_alignment ≤ alignments.getD n 0 then "translation"
    else "rotation"
  else "vibration"

/-- Model of the per-mode Raman entry (ir.py lines 236-237 and 272): when the
Raman step failed, `raman_intensities` was replaced by a list of `None`, so
every mode's entry is `None`; otherwise the entry of the re-ordered index is
used. -/
def raman_entry : Option (List ℚ) → ℕ → Option ℚ
  | none, _ => none
  | some l, n => some (l.getD n 0)

/-- Model of `compile_modes_info` (ir.py lines 224-300), restricted to the
fields of `ModeRecord`.  The loop variable runs over `range(num_modes)` and is
immediately remapped through `mapping = dict(zip(arange(len(frequencies)),
argsort(frequencies)))`; classification then branches on the remapped index.
Frequencies enter only through `argsort`; they are modelled by their rational
sort keys. -/
def compile_modes_info (linear : Bool) (alignments frequencies : List ℚ)
    (raman_intensities : Option (List ℚ)) : List ModeRecord :=
  let mapping := argsort frequencies
  let third_best := third_best_alignment_of alignments
  (List.range frequencies.length).map (fun k =>
    let n := mapping.getD k 0
    { number := n
      ramanIntensity := raman_entry raman_intensities n
      modeType := mode_type linear alignments third_best n })

/-- Model of the `IRResult` record assembled by `run_xtb_ir`, restricted to
the fields the verified claims are about. -/
structure IRResult where
  wavenumbers : List ℚ
  intensities : List ℚ
  ramanIntensities : Option (List ℚ)
  zeroPointEnergy : ℚ
  modes : List ModeRecord
  isLinear : Bool
  momentsOfInertia : List ℚ
  deriving DecidableEq, Repr

/-- The data the external xtb/ASE engine produces during one `run_xtb_ir`
computation: the folded IR spectrum, the zero-point energy, the mode
frequencies and the per-mode alignment scores, and the outcome of the Raman
sub-step — `none` models the Raman block raising an exception, `some`
carries `(pz.get_absolute_intensities(), get_raman_spectrum(pz)[1])`. -/
structure EngineOut where
  spectrum_wavenumbers : List ℚ
  spectrum_intensities : List ℚ
  zero_point_energy : ℚ
  frequencies : List ℚ
  alignments : List ℚ
  raman : Option (List ℚ × List ℚ)
  deriving DecidableEq, Repr

/-- Model of `run_xtb_ir` (ir.py lines 72-164) as a state machine over the
filesystem, restricted to what the verified claims are about.  `this_hash` is
the name of the scratch directory (the content hash `ir_hash(atoms, method)`),
`cached` is the `ir_cache` lookup for that hash, and `fs` is the list of
existing scratch directories.  The Raman calculator and the `Infrared`
calculator both materialize the directory named `str(this_hash)`; a caught
Raman failure deletes it (`shutil.rmtree(str(this_hash))`), and the success
path ends with `shutil.rmtree(ir.cache.directory)` for the same name.  The
`assert len(spectrum[0]) == len(raman_spectrum)` of line 108 is modelled by
the `assertionError` exit (which the code does not catch).  The bond-level
attribution data of the result is modelled separately by
`get_bond_displacements` and the selection functions. -/
def run_xtb_ir (this_hash : String) (moi : List ℚ) (cached : Option IRResult)
    (eng : EngineOut) (fs : List String) : Except PyError IRResult × List String :=
  let linear := is_linear moi
  match cached with
  | some result => (Except.ok result, fs)
  | none =>
    let fs1 := this_hash :: fs
    let ramanStep : Option (List ℚ × List ℚ) × List String :=
      match eng.raman with
      | some p => (some p, fs1)
      | none => (none, fs1.filter (fun d => !(d == this_hash)))
    let fs2 := ramanStep.2
    let fs3 := if this_hash ∈ fs2 then fs2 else this_hash :: fs2
    let mkResult : Option (List ℚ) → Option (List ℚ) → IRResult := fun ri rs =>
      { wavenumbers := eng.spectrum_wavenumbers
        intensities := eng.spectrum_intensities
        ramanIntensities := rs
        zeroPointEnergy := eng.zero_point_energy
        modes := compile_modes_info linear eng.alignments eng.frequencies ri
        isLinear := linear
        momentsOfInertia := moi }
    match ramanStep.1 with
    | none =>
      (Except.ok (mkResult none none), fs3.filter (fun d => !(d == this_hash)))
    | some (raman_intensities, raman_spectrum) =>
      if eng.spectrum_wavenumbers.length = raman_spectrum.length then
        (Except.ok (mkResult (some raman_intensities) (some raman_spectrum)),
          fs3.filter (fun d => !(d == this_hash)))
      else (Except.error PyError.assertionError, fs3)

/-- Model of `get_max_atoms` (ir.py lines 31-37); an unknown method name
falls through and Python implicitly returns `None`. -/
def get_max_atoms (MAX_ATOMS_FF MAX_ATOMS_XTB : ℕ) (method : String) : Option ℕ :=
  if method == "GFNFF" then some MAX_ATOMS_FF
  else if method == "GFN2xTB" then some MAX_ATOMS_XTB
  else if method == "GFN1xTB" then some MAX_ATOMS_XTB
  else none

/-- The external collaborators of the end-to-end pipeline (ir.py lines
168-200), as deterministic functions: the structure builder, the geometry
optimizer (`run_xtb_opt`, from `xtbservice/optimize.py`, not part of the
given sources), the engine computation `run_xtb_ir`, the content hash
`hash_object`, and the two atom limits from settings. -/
structure Pipeline where
  smiles2aseF : String → Option ℕ → XpsUtils.AseAtoms × XpsUtils.RDMol
  molfile2aseF : String → Option ℕ → XpsUtils.AseAtoms × XpsUtils.RDMol
  run_xtb_optF : XpsUtils.AseAtoms → String → XpsUtils.AseAtoms
  run_xtb_irF : XpsUtils.AseAtoms → String → XpsUtils.RDMol → IRResult
  hash_objectF : String → String
  maxFF : ℕ
  maxXTB : ℕ

/-- The mutable state the end-to-end pipeline touches: the two final-result
diskcache stores (`ir_from_smiles_cache`, `ir_from_molfile_cache`, keyed by
the content hash of input string + method), plus invocation counters for the
structure-building, optimization and engine steps. -/
structure AppState where
  smilesCache : String → Option IRResult
  molfileCache : String → Option IRResult
  buildCalls : ℕ
  optCalls : ℕ
  irCalls : ℕ

/-- Model of `calculate_from_smiles` (ir.py lines 168-173): build, optimize,
run the engine, then store the result in `ir_from_smiles_cache` under
`myhash`. -/
def calculate_from_smiles (P : Pipeline) (smiles method myhash : String) (st : AppState) :
    IRResult × AppState :=
  let am := P.smiles2aseF smiles (get_max_atoms P.maxFF P.maxXTB method)
  let opt_atoms := P.run_xtb_optF am.1 method
  let result := P.run_xtb_irF opt_atoms method am.2
  (result,
    { st with
        smilesCache := fun k => if k = myhash then some result else st.smilesCache k
        buildCalls := st.buildCalls + 1
        optCalls := st.optCalls + 1
        irCalls := st.irCalls + 1 })

/-- Model of `ir_from_smiles` (ir.py lines 176-181):
`myhash = hash_object(smiles + method)`; on a cache hit the stored result is
returned, otherwise `calculate_from_smiles` runs. -/
def ir_from_smiles (P : Pipeline) (smiles method : String) (st : AppState) :
    IRResult × AppState :=
  let myhash := P.hash_objectF (smiles ++ method)
  match st.smilesCache myhash with
  | some result => (result, st)
  | none => calculate_from_smiles P smiles method myhash st

/-- Model of `calculate_from_molfile` (ir.py lines 185-190). -/
def calculate_from_molfile (P : Pipeline) (molfile method myhash : String) (st : AppState) :
    IRResult × AppState :=
  let am := P.molfile2aseF molfile (get_max_atoms P.maxFF P.maxXTB method)
  let opt_atoms := P.run_xtb_optF am.1 method
  let result := P.run_xtb_irF opt_atoms method am.2
  (result,
    { st with
        molfileCache := fun k => if k = myhash then some result else st.molfileCache k
        buildCalls := st.buildCalls + 1
        optCalls := st.optCalls + 1
        irCalls := st.irCalls + 1 })

/-- Model of `ir_from_molfile` (ir.py lines 193-200). -/
def ir_from_molfile (P : Pipeline) (molfile method : String) (st : AppState) :
    IRResult × AppState :=
  let myhash := P.hash_objectF (molfile ++ method)
  match st.molfileCache myhash with
  | some result => (result, st)
  | none => calculate_from_molfile P molfile method myhash st

end XtbIR

/-! ## Helper lemmas -/

theorem mem_npWhere {p : ℚ → Bool} {l : List ℚ} {i : ℕ} :
    i ∈ npWhere p l ↔ i < l.length ∧ p (l.getD i 0) = true := by
  simp [npWhere, List.mem_filter, List.mem_range]

theorem mem_select_most_contributing_bonds {d : List ℚ} {t : ℚ} {i : ℕ} (h : 1 < d.length) :
    i ∈ XtbIR.select_most_contributing_bonds d t ↔
      i < d.length ∧
        t * listMax0 ((np_diff (d.map (fun x => x / d.sum))).map (fun x => |x|))
          < d.getD i 0 / d.sum := by
  rw [XtbIR.select_most_contributing_bonds, if_pos h, mem_npWhere]
  constructor
  · rintro ⟨hi, hp⟩
    rw [List.length_map] at hi
    refine ⟨hi, ?_⟩
    rw [decide_eq_true_eq] at hp
    rwa [List.getD_eq_getElem _ _ (by simpa using hi), List.getElem_map,
      ← List.getD_eq_getElem _ 0 hi] at hp
  · rintro ⟨hi, hp⟩
    refine ⟨by simpa using hi, ?_⟩
    rw [decide_eq_true_eq]
    rwa [List.getD_eq_getElem _ _ (by simpa using hi), List.getElem_map,
      ← List.getD_eq_getElem _ 0 hi]

theorem mem_select_most_contributing_atoms {norms : List ℚ} {t : ℚ} {j : ℕ} :
    j ∈ XtbIR.select_most_contributing_atoms norms t ↔
      j < norms.length ∧
        t * listMax0 ((np_diff (norms.map (fun x => x / listMax0 norms))).map (fun x => |x|))
          < norms.getD j 0 / listMax0 norms := by
  rw [XtbIR.select_most_contributing_atoms, mem_npWhere]
  constructor
  · rintro ⟨hj, hp⟩
    rw [List.length_map] at hj
    refine ⟨hj, ?_⟩
    rw [decide_eq_true_eq] at hp
    rwa [List.getD_eq_getElem _ _ (by simpa using hj), List.getElem_map,
      ← List.getD_eq_getElem _ 0 hj] at hp
  · rintro ⟨hj, hp⟩
    refine ⟨by simpa using hj, ?_⟩
    rw [decide_eq_true_eq]
    rwa [List.getD_eq_getElem _ _ (by simpa using hj), List.getElem_map,
      ← List.getD_eq_getElem _ 0 hj]

theorem mem_select_most_contributing_bonds_specSorted {d : List ℚ} {t : ℚ} {i : ℕ} :
    i ∈ XtbIR.select_most_contributing_bonds_specSorted d t ↔
      i < d.length ∧
        t * listMax0
            ((np_diff ((d.map (fun x => x / d.sum)).mergeSort (fun a b => decide (a ≤ b)))).map
              (fun x => |x|))
          < d.getD i 0 / d.sum := by
  rw [XtbIR.select_most_contributing_bonds_specSorted, mem_npWhere]
  constructor
  · rintro ⟨hi, hp⟩
    rw [List.length_map] at hi
    refine ⟨hi, ?_⟩
    rw [decide_eq_true_eq] at hp
    rwa [List.getD_eq_getElem _ _ (by simpa using hi), List.getElem_map,
      ← List.getD_eq_getElem _ 0 hi] at hp
  · rintro ⟨hi, hp⟩
    refine ⟨by simpa using hi, ?_⟩
    rw [decide_eq_true_eq]
    rwa [List.getD_eq_getElem _ _ (by simpa using hi), List.getElem_map,
      ← List.getD_eq_getElem _ 0 hi]

/-! ## Claim C2 -/

/-- Claim C2 counterexample: the claim says the analyzer classifies the
molecule as linear as soon as at least two principal moments exceed 0.01, but
for the eigenvalue triple (1, 1, 1) — where all three, hence at least two,
exceed 0.01 — the code's test `sum(moi > 0.01) == 2` yields not-linear. -/
theorem claim_C2_counterexample :
    XtbIR.is_linear [1, 1, 1] = false ∧
      2 ≤ [(1 : ℚ), 1, 1].countP (fun x => decide ((1 : ℚ) / 100 < x)) := by
  constructor
  · norm_num [XtbIR.is_linear, List.countP_cons, decide_eq_true_eq]
  · norm_num [List.countP_cons, decide_eq_true_eq]

/-- Claim C2 (amended): the analyzer classifies the molecule as linear iff
exactly two of the three principal moment-of-inertia eigenvalues exceed the
threshold 0.01. -/
theorem claim_C2 (a b c : ℚ) :
    XtbIR.is_linear [a, b, c] = true ↔
      (((1 : ℚ) / 100 < a ∧ (1 : ℚ) / 100 < b ∧ ¬ (1 : ℚ) / 100 < c)
      ∨ ((1 : ℚ) / 100 < a ∧ ¬ (1 : ℚ) / 100 < b ∧ (1 : ℚ) / 100 < c)
      ∨ (¬ (1 : ℚ) / 100 < a ∧ (1 : ℚ) / 100 < b ∧ (1 : ℚ) / 100 < c)) := by
  by_cases ha : (100 : ℚ)⁻¹ < a <;> by_cases hb : (100 : ℚ)⁻¹ < b <;>
    by_cases hc : (100 : ℚ)⁻¹ < c <;>
      simp [XtbIR.is_linear, List.countP_cons, one_div, ha, hb, hc]

/-! ## Claim C3 -/

/-- Claim C3 counterexample: for the per-bond length-change row
(10, 0, 4, 6) the adaptive-gap rule computed over the *sorted*
relative-contribution sequence (the claim's wording) selects bond 2, while
the code — which takes `np.diff` of the sequence in bond order, unsorted —
does not select bond 2. -/
theorem claim_C3_counterexample :
    (2 : ℕ) ∈ XtbIR.select_most_contributing_bonds_specSorted [10, 0, 4, 6] (2 / 5) ∧
      (2 : ℕ) ∉ XtbIR.select_most_contributing_bonds [10, 0, 4, 6] (2 / 5) := by
  constructor
  · rw [mem_select_most_contributing_bonds_specSorted]
    constructor
    · norm_num
    · norm_num [np_diff, listMax0, List.mergeSort, List.merge, max_def, abs]
  · rw [mem_select_most_contributing_bonds (by norm_num)]
    norm_num [np_diff, listMax0, max_def, abs]

/-- Claim C3 (amended): for a mode with at least two bonds, a bond is selected
as most contributing exactly when its relative contribution (its length change
divided by the sum over all bonds) exceeds 0.4 times the maximum absolute
difference between consecutive entries of the relative-contribution sequence
taken in bond order (not sorted); likewise an atom is selected exactly when
its displacement magnitude divided by the maximum magnitude exceeds 0.4 times
the maximum absolute difference between consecutive entries of that sequence
taken in atom order (not sorted). -/
theorem claim_C3 (d norms : List ℚ) (i j : ℕ) (hd : 1 < d.length) (hn : 1 < norms.length) :
    (i ∈ XtbIR.select_most_contributing_bonds d (2 / 5) ↔
      i < d.length ∧
        (2 / 5 : ℚ) * listMax0 ((np_diff (d.map (fun x => x / d.sum))).map (fun x => |x|))
          < d.getD i 0 / d.sum)
    ∧ (j ∈ XtbIR.select_most_contributing_atoms norms (2 / 5) ↔
      j < norms.length ∧
        (2 / 5 : ℚ) *
            listMax0 ((np_diff (norms.map (fun x => x / listMax0 norms))).map (fun x => |x|))
          < norms.getD j 0 / listMax0 norms) :=
  ⟨mem_select_most_contributing_bonds hd, mem_select_most_contributing_atoms⟩

/-- Claim C3 witness: the amended characterization instantiated at the
concrete bond row (10, 0, 4, 6) with bond index 0 and at the atom-magnitude
list (1, 2) with atom index 1. -/
theorem claim_C3_witness :
    ((0 : ℕ) ∈ XtbIR.select_most_contributing_bonds [10, 0, 4, 6] (2 / 5) ↔
      0 < ([(10 : ℚ), 0, 4, 6]).length ∧
        (2 / 5 : ℚ) *
            listMax0 ((np_diff (([(10 : ℚ), 0, 4, 6]).map
              (fun x => x / ([(10 : ℚ), 0, 4, 6]).sum))).map (fun x => |x|))
          < ([(10 : ℚ), 0, 4, 6]).getD 0 0 / ([(10 : ℚ), 0, 4, 6]).sum)
    ∧ ((1 : ℕ) ∈ XtbIR.select_most_contributing_atoms [1, 2] (2 / 5) ↔
      1 < ([(1 : ℚ), 2]).length ∧
        (2 / 5 : ℚ) *
            listMax0 ((np_diff (([(1 : ℚ), 2]).map
              (fun x => x / listMax0 [(1 : ℚ), 2]))).map (fun x => |x|))
          < ([(1 : ℚ), 2]).getD 1 0 / listMax0 [(1 : ℚ), 2]) :=
  claim_C3 [10, 0, 4, 6] [1, 2] 0 1 (by decide) (by decide)

/-! ## Claim C9 -/

/-- Claim C9 counterexample: for a molecule whose graph has no bonds (e.g. a
single-atom molecule), the per-mode bond-displacement row is empty and
`select_most_contributing_bonds` falls into its singleton branch and returns
index 0, which is not a valid bond index of the empty bond list. -/
theorem claim_C9_counterexample :
    ¬ ∀ i ∈ XtbIR.select_most_contributing_bonds
        (XtbIR.get_bond_displacements (fun _ => 0) [] [] []) (2 / 5),
        i < ([] : List (ℕ × ℕ)).length := by
  intro h
  have h0 : (0 : ℕ) ∈ XtbIR.select_most_contributing_bonds
      (XtbIR.get_bond_displacements (fun _ => 0) [] [] []) (2 / 5) := by
    simp [XtbIR.get_bond_displacements, XtbIR.select_most_contributing_bonds]
  exact absurd (h 0 h0) (by simp)

/-- Claim C9 (amended): for every mode of every molecule whose graph has at
least one bond, each index returned by `select_most_contributing_bonds` on
that mode's row of per-bond length changes (as produced by
`get_bond_displacements`) is a valid bond index: `0 ≤ index < number of
bonds`. -/
theorem claim_C9 (norm : XtbIR.Vec3 → ℚ) (bonds : List (ℕ × ℕ))
    (positions mode : List XtbIR.Vec3) (t : ℚ) (h : 1 ≤ bonds.length) :
    ∀ i ∈ XtbIR.select_most_contributing_bonds
        (XtbIR.get_bond_displacements norm bonds positions mode) t,
      i < bonds.length := by
  intro i hi
  have hlen : (XtbIR.get_bond_displacements norm bonds positions mode).length = bonds.length := by
    simp [XtbIR.get_bond_displacements]
  by_cases h1 : 1 < (XtbIR.get_bond_displacements norm bonds positions mode).length
  · rw [mem_select_most_contributing_bonds h1] at hi
    exact hlen ▸ hi.1
  · rw [XtbIR.select_most_contributing_bonds, if_neg h1] at hi
    have : i = 0 := by simpa using hi
    omega

/-- Claim C9 witness: the amended statement instantiated for a one-bond
molecule (two atoms, coordinate-projection norm, zero mode displacement). -/
theorem claim_C9_witness :
    (1 : ℕ) ≤ ([((0 : ℕ), (1 : ℕ))]).length ∧
      ∀ i ∈ XtbIR.select_most_contributing_bonds
          (XtbIR.get_bond_displacements (fun v => v.1) [(0, 1)]
            [((0 : ℚ), (0 : ℚ), (0 : ℚ)), ((1 : ℚ), (0 : ℚ), (0 : ℚ))]
            [((0 : ℚ), (0 : ℚ), (0 : ℚ)), ((0 : ℚ), (0 : ℚ), (0 : ℚ))]) (2 / 5),
        i < ([((0 : ℕ), (1 : ℕ))]).length :=
  ⟨by decide,
    claim_C9 (fun v => v.1) [(0, 1)]
      [((0 : ℚ), (0 : ℚ), (0 : ℚ)), ((1 : ℚ), (0 : ℚ), (0 : ℚ))]
      [((0 : ℚ), (0 : ℚ), (0 : ℚ)), ((0 : ℚ), (0 : ℚ), (0 : ℚ))] (2 / 5) (by decide)⟩

/-! ## Claim C4 -/

/-- Claim C4: on a conformer-cache miss, when the parsed molecule's atom count
exceeds the method's maximum-atom limit, both builders raise `TooLargeError`
and the conformer-embedding step is never invoked (`embedCalls = 0`), for the
SMILES path and the molfile path alike. -/
theorem claim_C4 (parseS parseM : String → Option XpsUtils.RDMol)
    (cache : String → Option (XpsUtils.AseAtoms × XpsUtils.RDMol))
    (s f : String) (max_atoms : ℕ) (molS molM : XpsUtils.RDMol)
    (hs1 : cache s = none) (hs2 : parseS s = some molS) (hs3 : max_atoms < molS.numAtoms)
    (hf1 : cache f = none) (hf2 : parseM f = some molM) (hf3 : max_atoms < molM.numAtoms) :
    XpsUtils.smiles2ase parseS cache s max_atoms =
      { result := Except.error (PyError.tooLargeError (XpsUtils.tooLargeMsg max_atoms))
        embedCalls := 0 }
    ∧ XpsUtils.molfile2ase parseM cache f max_atoms =
      { result := Except.error (PyError.tooLargeError (XpsUtils.tooLargeMsg max_atoms))
        embedCalls := 0 } := by
  constructor
  · simp [XpsUtils.smiles2ase, hs1, hs2, XpsUtils.check_max_atoms, XpsUtils.getNumAtoms,
      if_pos hs3]
  · simp [XpsUtils.molfile2ase, hf1, hf2, XpsUtils.check_max_atoms, XpsUtils.getNumAtoms,
      XpsUtils.updatePropertyCache, if_pos hf3]

/-- Claim C4 witness: a 5-atom parsed molecule against a limit of 3, on both
builder paths, with an empty conformer cache. -/
theorem claim_C4_witness :
    XpsUtils.smiles2ase (fun _ => some { numAtoms := 5, numImplicitH := 0 }) (fun _ => none)
        "smiles-input" 3 =
      { result := Except.error (PyError.tooLargeError (XpsUtils.tooLargeMsg 3))
        embedCalls := 0 }
    ∧ XpsUtils.molfile2ase (fun _ => some { numAtoms := 5, numImplicitH := 0 }) (fun _ => none)
        "molfile-input" 3 =
      { result := Except.error (PyError.tooLargeError (XpsUtils.tooLargeMsg 3))
        embedCalls := 0 } :=
  claim_C4 (fun _ => some { numAtoms := 5, numImplicitH := 0 })
    (fun _ => some { numAtoms := 5, numImplicitH := 0 }) (fun _ => none)
    "smiles-input" "molfile-input" 3 { numAtoms := 5, numImplicitH := 0 }
    { numAtoms := 5, numImplicitH := 0 } rfl rfl (by decide) rfl rfl (by decide)

/-! ## Claim C8 -/

/-- Claim C8: on unparseable input (RDKit's parsers return `None`), the
builders do not raise `InvalidInputError`: the SMILES path crashes with
`AttributeError` inside `check_max_atoms` (`None.GetNumAtoms()`), and the
molfile path crashes with `AttributeError` at `None.UpdatePropertyCache()`.
This contradicts the claim's `InvalidInputError` contract: a code bug (the
parser result is never checked for `None`). -/
theorem claim_C8 :
    (XpsUtils.smiles2ase (fun _ => none) (fun _ => none) "not_a_smiles" 100).result
        = Except.error (PyError.attributeError "NoneType object has no attribute GetNumAtoms")
    ∧ (XpsUtils.molfile2ase (fun _ => none) (fun _ => none) "bad molfile" 100).result
        = Except.error
            (PyError.attributeError "NoneType object has no attribute UpdatePropertyCache")
    ∧ isInvalidInputError
        (XpsUtils.smiles2ase (fun _ => none) (fun _ => none) "not_a_smiles" 100).result = false
    ∧ isInvalidInputError
        (XpsUtils.molfile2ase (fun _ => none) (fun _ => none) "bad molfile" 100).result = false :=
  ⟨rfl, rfl, rfl, rfl⟩

/-! ## Claim C10 -/

/-- Claim C10: in the SMILES path the maximum-atom check runs on the parsed
graph before `Chem.AddHs`, so (on a cache miss) `TooLargeError` is raised
exactly when the hydrogen-free heavy-atom count exceeds `max_atoms`; and
consequently a SMILES whose heavy-atom count passes the check can return a
structure that, after hydrogen addition, has more than `max_atoms` atoms
(here: 2 heavy atoms + 6 hydrogens = 8 atoms against a limit of 7). -/
theorem claim_C10 (parse : String → Option XpsUtils.RDMol)
    (cache : String → Option (XpsUtils.AseAtoms × XpsUtils.RDMol))
    (s : String) (max_atoms : ℕ) (mol : XpsUtils.RDMol)
    (h1 : cache s = none) (h2 : parse s = some mol) :
    (isTooLargeError (XpsUtils.smiles2ase parse cache s max_atoms).result = true ↔
      max_atoms < mol.numAtoms)
    ∧ ∃ atoms refmol,
        (XpsUtils.smiles2ase (fun _ => some { numAtoms := 2, numImplicitH := 6 })
            (fun _ => none) "CC" 7).result = Except.ok (atoms, refmol)
        ∧ 7 < atoms.numAtoms := by
  constructor
  · by_cases h3 : max_atoms < mol.numAtoms
    · simp [XpsUtils.smiles2ase, h1, h2, XpsUtils.check_max_atoms, XpsUtils.getNumAtoms,
        if_pos h3, isTooLargeError, h3]
    · simp [XpsUtils.smiles2ase, h1, h2, XpsUtils.check_max_atoms, XpsUtils.getNumAtoms,
        if_neg h3, isTooLargeError, h3]
  · exact ⟨{ numAtoms := 8 }, { numAtoms := 8, numImplicitH := 0 }, rfl, by decide⟩

/-- Claim C10 witness: a parsed molecule with 9 heavy atoms against a limit of
5, on an empty cache. -/
theorem claim_C10_witness :
    (isTooLargeError (XpsUtils.smiles2ase (fun _ => some { numAtoms := 9, numImplicitH := 0 })
        (fun _ => none) "witness-smiles" 5).result = true ↔ 5 < 9)
    ∧ ∃ atoms refmol,
        (XpsUtils.smiles2ase (fun _ => some { numAtoms := 2, numImplicitH := 6 })
            (fun _ => none) "CC" 7).result = Except.ok (atoms, refmol)
        ∧ 7 < atoms.numAtoms := by
  have h := claim_C10 (fun _ => some { numAtoms := 9, numImplicitH := 0 }) (fun _ => none)
    "witness-smiles" 5 { numAtoms := 9, numImplicitH := 0 } rfl rfl
  exact h

/-! ## Claim C1 -/

theorem argsort_perm (l : List ℚ) : (argsort l).Perm (List.range l.length) :=
  List.mergeSort_perm _ _

theorem length_argsort (l : List ℚ) : (argsort l).length = l.length := by
  rw [(argsort_perm l).length_eq, List.length_range]

theorem map_getD_range (l : List ℕ) :
    (List.range l.length).map (fun k => l.getD k 0) = l := by
  apply List.ext_getElem
  · simp
  · intro i h1 h2
    simp only [List.getElem_map, List.getElem_range]
    exact List.getD_eq_getElem l 0 h2

theorem countP_range_lt (N c : ℕ) :
    (List.range N).countP (fun n => decide (n < c)) = min c N := by
  induction N with
  | zero => simp
  | succ N ih =>
    rw [List.range_succ, List.countP_append, ih]
    by_cases h : N < c
    · simp [List.countP_cons, h]
      omega
    · simp [List.countP_cons, h]
      omega

theorem compile_modes_info_eq_map (linear : Bool) (alignments frequencies : List ℚ)
    (ri : Option (List ℚ)) :
    XtbIR.compile_modes_info linear alignments frequencies ri =
      (argsort frequencies).map (fun n =>
        { number := n
          ramanIntensity := XtbIR.raman_entry ri n
          modeType :=
            XtbIR.mode_type linear alignments (XtbIR.third_best_alignment_of alignments) n }) := by
  have h1 : (List.range frequencies.length).map (fun k => (argsort frequencies).getD k 0)
      = argsort frequencies := by
    rw [show frequencies.length = (argsort frequencies).length from
      (length_argsort frequencies).symm]
    exact map_getD_range (argsort frequencies)
  simp only [XtbIR.compile_modes_info]
  conv_rhs => rw [← h1, List.map_map]
  rfl

theorem mode_type_lt3 (linear : Bool) (al : List ℚ) (tb : ℚ) {n : ℕ} (h : n < 3) :
    XtbIR.mode_type linear al tb n = "translation" := by
  unfold XtbIR.mode_type
  rw [if_pos h]

theorem mode_type_rot (linear : Bool) (al : List ℚ) (tb : ℚ) {n : ℕ}
    (h3 : ¬ n < 3) (h5 : n < 5) : XtbIR.mode_type linear al tb n = "rotation" := by
  unfold XtbIR.mode_type
  rw [if_neg h3, if_pos h5]

theorem mode_type_five_linear (al : List ℚ) (tb : ℚ) :
    XtbIR.mode_type true al tb 5 = "vibration" := by
  unfold XtbIR.mode_type
  rw [if_neg (by omega), if_neg (by omega), if_pos rfl, if_pos rfl]

theorem mode_type_five_tr (al : List ℚ) (tb : ℚ) (ha : tb ≤ al.getD 5 0) :
    XtbIR.mode_type false al tb 5 = "translation" := by
  unfold XtbIR.mode_type
  rw [if_neg (by omega), if_neg (by omega), if_pos rfl, if_neg (by simp), if_pos ha]

theorem mode_type_five_rot (al : List ℚ) (tb : ℚ) (ha : ¬ tb ≤ al.getD 5 0) :
    XtbIR.mode_type false al tb 5 = "rotation" := by
  unfold XtbIR.mode_type
  rw [if_neg (by omega), if_neg (by omega), if_pos rfl, if_neg (by simp), if_neg ha]

theorem mode_type_vib (linear : Bool) (al : List ℚ) (tb : ℚ) {n : ℕ} (h : 6 ≤ n) :
    XtbIR.mode_type linear al tb n = "vibration" := by
  unfold XtbIR.mode_type
  rw [if_neg (by omega), if_neg (by omega), if_neg (by omega)]

theorem mode_type_zero_iff (linear : Bool) (alignments : List ℚ) (tb : ℚ) (n : ℕ) :
    ((XtbIR.mode_type linear alignments tb n == "translation")
      || (XtbIR.mode_type linear alignments tb n == "rotation")) = true ↔
      n < (if linear then 5 else 6) := by
  by_cases h3 : n < 3
  · rw [mode_type_lt3 linear alignments tb h3]
    cases linear <;> simp <;> omega
  · by_cases h5 : n < 5
    · rw [mode_type_rot linear alignments tb h3 h5]
      cases linear <;> simp <;> omega
    · by_cases he : n = 5
      · subst he
        cases linear
        · by_cases ha : tb ≤ alignments.getD 5 0
          · rw [mode_type_five_tr alignments tb ha]
            simp
          · rw [mode_type_five_rot alignments tb ha]
            simp
        · rw [mode_type_five_linear alignments tb]
          simp
      · rw [mode_type_vib linear alignments tb (by omega)]
        have hn : ¬ n < (if linear then 5 else 6) := by cases linear <;> simp <;> omega
        simp [hn]

/-- Claim C1: in `compile_modes_info` the mode type is assigned by re-ordered
mode index — indices 0-2 are translation, 3-4 rotation; index 5 is vibration
when the molecule is linear and otherwise translation or rotation according to
whether that mode's alignment score reaches the third-highest alignment score;
every later index (and index 5 itself when linear) is vibration — and
consequently exactly 5 modes of a linear molecule and exactly 6 of a nonlinear
one are classified translation or rotation. -/
theorem claim_C1 (linear : Bool) (alignments frequencies : List ℚ) (ri : Option (List ℚ))
    (hlen : alignments.length = frequencies.length) (h6 : 6 ≤ frequencies.length) :
    (∀ r ∈ XtbIR.compile_modes_info linear alignments frequencies ri,
        (r.number < 3 → r.modeType = "translation")
      ∧ ((r.number = 3 ∨ r.number = 4) → r.modeType = "rotation")
      ∧ (r.number = 5 → linear = true → r.modeType = "vibration")
      ∧ (r.number = 5 → linear = false →
          (XtbIR.third_best_alignment_of alignments ≤ alignments.getD 5 0 →
            r.modeType = "translation")
          ∧ (alignments.getD 5 0 < XtbIR.third_best_alignment_of alignments →
            r.modeType = "rotation"))
      ∧ (6 ≤ r.number → r.modeType = "vibration")
      ∧ (linear = true → 5 ≤ r.number → r.modeType = "vibration"))
    ∧ (XtbIR.compile_modes_info linear alignments frequencies ri).countP
        (fun r => r.modeType == "translation" || r.modeType == "rotation")
        = if linear then 5 else 6 := by
  constructor
  · intro r hr
    rw [compile_modes_info_eq_map] at hr
    obtain ⟨n, hn_mem, rfl⟩ := List.mem_map.mp hr
    dsimp only
    refine ⟨?_, ?_, ?_, ?_, ?_, ?_⟩
    · intro h
      exact mode_type_lt3 linear alignments _ h
    · intro h
      exact mode_type_rot linear alignments _ (by omega) (by omega)
    · intro h hl
      subst hl
      subst h
      exact mode_type_five_linear alignments _
    · intro h hl
      subst hl
      subst h
      exact ⟨fun ha => mode_type_five_tr alignments _ ha,
        fun ha => mode_type_five_rot alignments _ (not_le.mpr ha)⟩
    · intro h
      exact mode_type_vib linear alignments _ h
    · intro hl h
      subst hl
      by_cases he : n = 5
      · subst he
        exact mode_type_five_linear alignments _
      · exact mode_type_vib true alignments _ (by omega)
  · rw [compile_modes_info_eq_map, List.countP_map]
    have hcong : List.countP
        ((fun r : XtbIR.ModeRecord => r.modeType == "translation" || r.modeType == "rotation")
          ∘ (fun n => { number := n
                        ramanIntensity := XtbIR.raman_entry ri n
                        modeType := XtbIR.mode_type linear alignments
                          (XtbIR.third_best_alignment_of alignments) n : XtbIR.ModeRecord }))
        (argsort frequencies)
        = List.countP (fun n => decide (n < (if linear then 5 else 6))) (argsort frequencies) := by
      apply List.countP_congr
      intro n _
      rw [decide_eq_true_eq]
      exact mode_type_zero_iff linear alignments (XtbIR.third_best_alignment_of alignments) n
    rw [hcong, (argsort_perm frequencies).countP_eq, countP_range_lt]
    cases linear <;> simp <;> omega

/-- Claim C1 witness: a nonlinear 3-atom molecule (9 modes) with concrete
alignment scores and frequency keys. -/
theorem claim_C1_witness :
    ([(3 : ℚ), 1, 4, 1, 5, 9, 2, 6, 5] : List ℚ).length
        = ([(2 : ℚ), 7, 1, 8, 2, 8, 1, 8, 3] : List ℚ).length ∧
    ((∀ r ∈ XtbIR.compile_modes_info false [(3 : ℚ), 1, 4, 1, 5, 9, 2, 6, 5]
        [(2 : ℚ), 7, 1, 8, 2, 8, 1, 8, 3] none,
        (r.number < 3 → r.modeType = "translation")
      ∧ ((r.number = 3 ∨ r.number = 4) → r.modeType = "rotation")
      ∧ (r.number = 5 → false = true → r.modeType = "vibration")
      ∧ (r.number = 5 → false = false →
          (XtbIR.third_best_alignment_of [(3 : ℚ), 1, 4, 1, 5, 9, 2, 6, 5]
              ≤ ([(3 : ℚ), 1, 4, 1, 5, 9, 2, 6, 5] : List ℚ).getD 5 0 →
            r.modeType = "translation")
          ∧ (([(3 : ℚ), 1, 4, 1, 5, 9, 2, 6, 5] : List ℚ).getD 5 0
              < XtbIR.third_best_alignment_of [(3 : ℚ), 1, 4, 1, 5, 9, 2, 6, 5] →
            r.modeType = "rotation"))
      ∧ (6 ≤ r.number → r.modeType = "vibration")
      ∧ (false = true → 5 ≤ r.number → r.modeType = "vibration"))
    ∧ (XtbIR.compile_modes_info false [(3 : ℚ), 1, 4, 1, 5, 9, 2, 6, 5]
        [(2 : ℚ), 7, 1, 8, 2, 8, 1, 8, 3] none).countP
        (fun r => r.modeType == "translation" || r.modeType == "rotation")
        = if false then 5 else 6) :=
  ⟨by decide,
    claim_C1 false [(3 : ℚ), 1, 4, 1, 5, 9, 2, 6, 5] [(2 : ℚ), 7, 1, 8, 2, 8, 1, 8, 3] none
      (by decide) (by decide)⟩

/-! ## Claim C5 -/

theorem compile_modes_info_raman_none (linear : Bool) (alignments frequencies : List ℚ) :
    ∀ r ∈ XtbIR.compile_modes_info linear alignments frequencies none,
      r.ramanIntensity = none := by
  intro r hr
  rw [compile_modes_info_eq_map] at hr
  obtain ⟨n, _, rfl⟩ := List.mem_map.mp hr
  rfl

/-- Claim C5: when the Raman sub-step raises (modelled by `eng.raman = none`)
on an `ir_cache` miss, `run_xtb_ir` still returns a result: its
`ramanIntensities` field is `none`, every per-mode `ramanIntensity` is `none`,
and the IR wavenumbers, IR intensities and zero-point energy are exactly the
ones the IR computation produced. -/
theorem claim_C5 (this_hash : String) (moi : List ℚ) (fs : List String)
    (w ints freqs aligns : List ℚ) (z : ℚ) :
    ∃ r, (XtbIR.run_xtb_ir this_hash moi none
        { spectrum_wavenumbers := w
          spectrum_intensities := ints
          zero_point_energy := z
          frequencies := freqs
          alignments := aligns
          raman := none } fs).1 = Except.ok r
      ∧ r.ramanIntensities = none
      ∧ (∀ m ∈ r.modes, m.ramanIntensity = none)
      ∧ r.wavenumbers = w
      ∧ r.intensities = ints
      ∧ r.zeroPointEnergy = z := by
  refine ⟨_, rfl, rfl, ?_, rfl, rfl, rfl⟩
  exact compile_modes_info_raman_none _ _ _

/-! ## Claim C6 -/

theorem not_mem_filter_ne_self (a : String) (l : List String) :
    a ∉ l.filter (fun d => !(d == a)) := by
  intro h
  rcases List.mem_filter.mp h with ⟨_, hb⟩
  simp at hb

/-- Claim C6: on every exit of `run_xtb_ir` covered by the claim — the success
path and the caught-Raman-failure path, i.e. every run that returns normally —
the scratch directory named by the computation's content hash is absent from
the filesystem at return (it is `rmtree`d); this also holds for the cache-hit
path, on which the directory is never created.  The only abnormal exit of the
model, the uncaught assertion failure, is outside the claim's scope. -/
theorem claim_C6 (this_hash : String) (moi : List ℚ) (cached : Option XtbIR.IRResult)
    (eng : XtbIR.EngineOut) (fs : List String)
    (h0 : this_hash ∉ fs)
    (hok : (XtbIR.run_xtb_ir this_hash moi cached eng fs).1.isOk = true) :
    this_hash ∉ (XtbIR.run_xtb_ir this_hash moi cached eng fs).2 := by
  match cached with
  | some result => exact h0
  | none =>
    rw [XtbIR.run_xtb_ir] at hok ⊢
    match hraman : eng.raman with
    | none =>
      simp only [hraman]
      exact not_mem_filter_ne_self _ _
    | some p =>
      simp only [hraman] at hok ⊢
      by_cases hlen : eng.spectrum_wavenumbers.length = p.2.length
      · simp only [if_pos hlen]
        exact not_mem_filter_ne_self _ _
      · simp only [if_neg hlen] at hok
        simp [Except.isOk, Except.toBool] at hok

/-- Claim C6 witness: a concrete cache-miss run with a failing Raman sub-step
on an initially empty filesystem — the scratch directory named by the hash is
gone at return. -/
theorem claim_C6_witness :
    "hash-d41d8cd9" ∉ ([] : List String) ∧
      "hash-d41d8cd9" ∉ (XtbIR.run_xtb_ir "hash-d41d8cd9" [] none
        { spectrum_wavenumbers := []
          spectrum_intensities := []
          zero_point_energy := 0
          frequencies := []
          alignments := []
          raman := none } []).2 :=
  ⟨by decide,
    claim_C6 "hash-d41d8cd9" [] none
      { spectrum_wavenumbers := []
        spectrum_intensities := []
        zero_point_energy := 0
        frequencies := []
        alignments := []
        raman := none } [] (by decide) rfl⟩

/-! ## Claim C7 -/

/-- Claim C7: the final-result caches are keyed by
`hash_object(input string + method)`, and a second `ir_from_smiles` (resp.
`ir_from_molfile`) call with the same (input, method) pair returns the result
of the first call without invoking the structure builder, the geometry
optimizer or the engine computation again — their invocation counters do not
change on the second call. -/
theorem claim_C7 (P : XtbIR.Pipeline) (s m f : String) (st0 st0' : XtbIR.AppState) :
    ((XtbIR.ir_from_smiles P s m (XtbIR.ir_from_smiles P s m st0).2).1
        = (XtbIR.ir_from_smiles P s m st0).1
      ∧ (XtbIR.ir_from_smiles P s m (XtbIR.ir_from_smiles P s m st0).2).2.buildCalls
        = (XtbIR.ir_from_smiles P s m st0).2.buildCalls
      ∧ (XtbIR.ir_from_smiles P s m (XtbIR.ir_from_smiles P s m st0).2).2.optCalls
        = (XtbIR.ir_from_smiles P s m st0).2.optCalls
      ∧ (XtbIR.ir_from_smiles P s m (XtbIR.ir_from_smiles P s m st0).2).2.irCalls
        = (XtbIR.ir_from_smiles P s m st0).2.irCalls
      ∧ (XtbIR.ir_from_smiles P s m st0).2.smilesCache (P.hash_objectF (s ++ m))
        = some (XtbIR.ir_from_smiles P s m st0).1)
    ∧ ((XtbIR.ir_from_molfile P f m (XtbIR.ir_from_molfile P f m st0').2).1
        = (XtbIR.ir_from_molfile P f m st0').1
      ∧ (XtbIR.ir_from_molfile P f m (XtbIR.ir_from_molfile P f m st0').2).2.buildCalls
        = (XtbIR.ir_from_molfile P f m st0').2.buildCalls
      ∧ (XtbIR.ir_from_molfile P f m (XtbIR.ir_from_molfile P f m st0').2).2.optCalls
        = (XtbIR.ir_from_molfile P f m st0').2.optCalls
      ∧ (XtbIR.ir_from_molfile P f m (XtbIR.ir_from_molfile P f m st0').2).2.irCalls
        = (XtbIR.ir_from_molfile P f m st0').2.irCalls
      ∧ (XtbIR.ir_from_molfile P f m st0').2.molfileCache (P.hash_objectF (f ++ m))
        = some (XtbIR.ir_from_molfile P f m st0').1) := by
  constructor
  · cases hc : st0.smilesCache (P.hash_objectF (s ++ m)) with
    | some r =>
      simp [XtbIR.ir_from_smiles, hc]
    | none =>
      simp [XtbIR.ir_from_smiles, XtbIR.calculate_from_smiles, hc]
  · cases hc : st0'.molfileCache (P.hash_objectF (f ++ m)) with
    | some r =>
      simp [XtbIR.ir_from_molfile, hc]
    | none =>
      simp [XtbIR.ir_from_molfile, XtbIR.calculate_from_molfile, hc]
